import Mathlib

/-!
Shallow embedding of the go-resdk request pipeline (karixtech/go-resdk).

Source files embedded:
  * base_handler.go — the orchestrator `BaseHandler.ServeHTTP` and the
    capability contracts, including `GetAuthorizer`;
  * json_serializer.go — `JsonSerializer`, `JsonErrorSerializer`,
    `JsonNotFoundSerializer`;
  * the unnamed file defining `JsonHandler`, `NewJsonHandler` and
    `setDefaults`.

Go interface values that may be nil are modelled with `Option`; a Go
`panic` is modelled with `Except Unit` (the `error` case is the panic).
Collaborator interfaces (Authenticatable, Deserializable, Processable,
Authorizable) are modelled as Lean functions held in a `Handler` record,
mirroring the fields of `BaseHandler`.  Error values (`error` in Go) are
modelled by `GoError κ`: `simple msg` is a value created by
`errors.New(msg)`, `custom v` is any other implementation of the `error`
interface supplied by a collaborator.
-/

namespace Resdk

/-- Go `error` interface values: `simple msg` is `errors.New(msg)`,
`custom v` any other error implementation. -/
inductive GoError (κ : Type) where
  | simple (msg : String)
  | custom (v : κ)
deriving DecidableEq

/-- Which of the six serializer slots of `BaseHandler` is invoked. -/
inductive Slot where
  | success
  | authentication
  | validation
  | processing
  | notFound
  | authorization
deriving DecidableEq

/-- The `Outputable` value handed to a serializer: either the processor
output (success path) or an error value (error paths).  In Go both are
passed through the same `Outputable` parameter. -/
inductive SerArg (α κ : Type) where
  | out (o : α)
  | err (e : GoError κ)
deriving DecidableEq

/-- Observable events of one `ServeHTTP` run, in program order: each
collaborator call and each serializer invocation. -/
inductive Event (α δ κ : Type) where
  | authenticate
  | deserialize
  | validate
  | process
  | authorize (auth_details : Option δ)
  | serialize (s : Slot) (v : SerArg α κ)
deriving DecidableEq

/-- Terminal outcome of `ServeHTTP`: either some serializer wrote the
response, or the run panicked (no serializer ran). -/
inductive Outcome (α κ : Type) where
  | serialized (s : Slot) (v : SerArg α κ)
  | panicked
deriving DecidableEq

/-- Model of `BaseHandler` configuration: the collaborator slots of the struct in
base_handler.go.  `authenticator = none` models a nil `Authenticator`.
`process` returns the Go pair `(Outputable, error)` with nil modelled by
`none`.  `isAuthorizable o = true` models "the dynamic type of `o`
implements the `Authorizable` interface", and `authorize` is that
interface's `Authorize` method (its argument is the `auth_details`
`interface{}` value, nil modelled by `none`). -/
structure Handler (ρ ι α δ κ : Type) where
  authenticator : Option (ρ → Option δ × Option (GoError κ))
  deserializer : ρ → ι
  validate : ι → Option (GoError κ)
  process : ι → Option α × Option (GoError κ)
  isAuthorizable : α → Bool
  authorize : α → Option δ → Option (GoError κ)

/-- base_handler.go `GetAuthorizer`.  Its first statement
`_ = o.(Authorizable)` is an unchecked type assertion: it panics
(modelled by `Except.error ()`) whenever `o` does not implement
`Authorizable`.  Only then comes the checked assertion
`authorizer, ok := o.(Authorizable)` returning the authorizer or nil. -/
def GetAuthorizer {α : Type} (isAuth : α → Bool) (o : α) : Except Unit (Option α) :=
  if isAuth o = false then Except.error ()
  else if isAuth o then Except.ok (some o)
  else Except.ok none

/-- The body of `ServeHTTP` from the `Deserialize` call onwards
(the code after the authentication block), with the `auth_details`
value and the trace of events so far passed in. -/
def serveCore {ρ ι α δ κ : Type} (h : Handler ρ ι α δ κ) (r : ρ)
    (auth_details : Option δ) (tr : List (Event α δ κ)) :
    Outcome α κ × List (Event α δ κ) :=
  let inp := h.deserializer r
  let tr := tr ++ [Event.deserialize]
  let verrors := h.validate inp
  let tr := tr ++ [Event.validate]
  match verrors with
  | some e =>
      (Outcome.serialized Slot.validation (SerArg.err e),
       tr ++ [Event.serialize Slot.validation (SerArg.err e)])
  | none =>
    let pr := h.process inp
    let tr := tr ++ [Event.process]
    match pr with
    | (_, some e) =>
        (Outcome.serialized Slot.processing (SerArg.err e),
         tr ++ [Event.serialize Slot.processing (SerArg.err e)])
    | (none, none) =>
        let e : GoError κ := GoError.simple "Not found"
        (Outcome.serialized Slot.notFound (SerArg.err e),
         tr ++ [Event.serialize Slot.notFound (SerArg.err e)])
    | (some o, none) =>
      match GetAuthorizer h.isAuthorizable o with
      | Except.error _ => (Outcome.panicked, tr)
      | Except.ok (some a) =>
        let tr := tr ++ [Event.authorize auth_details]
        match h.authorize a auth_details with
        | some e =>
            (Outcome.serialized Slot.authorization (SerArg.err e),
             tr ++ [Event.serialize Slot.authorization (SerArg.err e)])
        | none =>
            (Outcome.serialized Slot.success (SerArg.out o),
             tr ++ [Event.serialize Slot.success (SerArg.out o)])
      | Except.ok none =>
          (Outcome.serialized Slot.success (SerArg.out o),
           tr ++ [Event.serialize Slot.success (SerArg.out o)])

/-- base_handler.go `BaseHandler.ServeHTTP`: the authentication block
followed by `serveCore`.  Returns the terminal outcome together with the
trace of collaborator and serializer invocations. -/
def ServeHTTP {ρ ι α δ κ : Type} (h : Handler ρ ι α δ κ) (r : ρ) :
    Outcome α κ × List (Event α δ κ) :=
  match h.authenticator with
  | some a =>
    let res := a r
    match res.2 with
    | some e =>
        (Outcome.serialized Slot.authentication (SerArg.err e),
         [Event.authenticate, Event.serialize Slot.authentication (SerArg.err e)])
    | none => serveCore h r res.1 [Event.authenticate]
  | none => serveCore h r none []

/-- Number of serializer invocations in a trace. -/
def serializeCount {α δ κ : Type} (tr : List (Event α δ κ)) : Nat :=
  tr.countP (fun e => match e with | Event.serialize _ _ => true | _ => false)

/-! Section: JSON values and rendering (model of encoding/json output). -/

/-- JSON values, the codomain of `encoding/json` marshalling. -/
inductive Json where
  | null
  | bool (b : Bool)
  | num (n : Int)
  | str (s : String)
  | arr (xs : List Json)
  | obj (fields : List (String × Json))

/-- Escape one character for a JSON string literal (quotes and
backslashes; the strings appearing in this repository contain no other
characters that `encoding/json` escapes). -/
def escapeChar (c : Char) : String :=
  if c = '"' then "\\\""
  else if c = '\\' then "\\\\"
  else String.singleton c

/-- Escape a string for a JSON string literal. -/
def escapeString (s : String) : String :=
  String.join (s.toList.map escapeChar)

/-- Render a string as a JSON string literal. -/
def renderString (s : String) : String :=
  "\"" ++ escapeString s ++ "\""

mutual

/-- Render a JSON value the way `encoding/json.Marshal` prints it
(no extra whitespace). -/
def Json.render : Json → String
  | Json.null => "null"
  | Json.bool b => if b then "true" else "false"
  | Json.num n => toString n
  | Json.str s => renderString s
  | Json.arr xs => "[" ++ renderArr xs ++ "]"
  | Json.obj fs => "\x7b" ++ renderObj fs ++ "\x7d"

/-- Render the comma-separated elements of a JSON array. -/
def renderArr : List Json → String
  | [] => ""
  | [x] => Json.render x
  | x :: xs => Json.render x ++ "," ++ renderArr xs

/-- Render the comma-separated members of a JSON object. -/
def renderObj : List (String × Json) → String
  | [] => ""
  | [kv] => renderString kv.1 ++ ":" ++ Json.render kv.2
  | kv :: fs => renderString kv.1 ++ ":" ++ Json.render kv.2 ++ "," ++ renderObj fs

end

/-! Section: Go values as seen by the JSON serializers.

A value of the `Outputable` (or `interface{}`) type, as far as
json_serializer.go can observe it: whether its dynamic type implements
the `error` interface (and what `Error()` returns), whether it
implements `json.Marshaler` (and what its `MarshalJSON` encodes), and
the reflection-based encoding `json.Marshal` produces otherwise. -/

/-- A Go value handed to a JSON serializer. -/
structure GoValue where
  /-- Holds `some msg` iff the dynamic type implements `error`, with
  `Error()` returning `msg`. -/
  errorMsg : Option String
  /-- Holds `some j` iff the dynamic type implements `json.Marshaler`, with
  `MarshalJSON` encoding `j`. -/
  marshalJSON : Option Json
  /-- The encoding `json.Marshal` produces by reflection when the value
  is not a `json.Marshaler`. -/
  defaultEncoding : Json

/-- Model of `json.Marshal` on a `GoValue`: `MarshalJSON` when implemented,
reflection otherwise. -/
def jsonMarshal (v : GoValue) : Json :=
  match v.marshalJSON with
  | some j => j
  | none => v.defaultEncoding

/-- Model of `errors.New msg`: an `error` that is not a `json.Marshaler`; its
reflection encoding is the empty object (the `errorString` struct has no
exported fields). -/
def goErrorsNew (msg : String) : GoValue :=
  { errorMsg := some msg, marshalJSON := none, defaultEncoding := Json.obj [] }

/-- A complete written HTTP response: Content-Type header, status code
passed to `WriteHeader`, and body. -/
structure Response where
  contentType : String
  status : Nat
  body : String
deriving DecidableEq

/-- json_serializer.go `JsonSerializer`: plain JSON success serializer. -/
structure JsonSerializer where
  StatusCode : Nat

/-- json_serializer.go `JsonSerializer.Serialize`: marshal the value,
set Content-Type, write the status and the body. -/
def JsonSerializer.Serialize (j : JsonSerializer) (out : GoValue) : Response :=
  { contentType := "application/json",
    status := j.StatusCode,
    body := Json.render (jsonMarshal out) }

/-- json_serializer.go `JsonErrorSerializer`: JSON error serializer with
an optional override `Error` value. -/
structure JsonErrorSerializer where
  StatusCode : Nat
  Error : Option GoValue

/-- json_serializer.go `JsonErrorSerializer.Serialize`: if the `Error`
field is set it replaces `out`; then, if `out` implements `error` but
not `json.Marshaler`, the body is the object with single member
`error : out.Error()`, otherwise the body is `json.Marshal out`. -/
def JsonErrorSerializer.Serialize (j : JsonErrorSerializer) (out : GoValue) : Response :=
  let out := match j.Error with
    | some e => e
    | none => out
  let out_obj : Json :=
    match out.errorMsg with
    | some msg =>
      match out.marshalJSON with
      | some _ => jsonMarshal out
      | none => Json.obj [("error", Json.str msg)]
    | none => jsonMarshal out
  { contentType := "application/json",
    status := j.StatusCode,
    body := Json.render out_obj }

/-- json_serializer.go `JsonNotFoundSerializer`: embeds a
`JsonErrorSerializer`. -/
structure JsonNotFoundSerializer where
  toJsonErrorSerializer : JsonErrorSerializer

/-- json_serializer.go `JsonNotFoundSerializer.Serialize`: overwrite the
embedded serializer's `StatusCode` with 404 and its `Error` with
`errors.New("Not found")` (the receiver is a value, so the overwrite is
local to the call), then delegate to `JsonErrorSerializer.Serialize`. -/
def JsonNotFoundSerializer.Serialize (j : JsonNotFoundSerializer) (out : GoValue) : Response :=
  let j := { j with toJsonErrorSerializer :=
    { StatusCode := 404, Error := some (goErrorsNew "Not found") } }
  j.toJsonErrorSerializer.Serialize out

/-! Section: JsonHandler defaults (the unnamed source file).

`JsonHandler` embeds `BaseHandler` and adds no fields; `setDefaults`
only touches the serializer configuration slots, so we model exactly
those slots.  A configured slot holds one of the concrete serializers of
json_serializer.go or an arbitrary user-supplied serializer (`custom`,
opaque). -/

/-- A value stored in a serializer slot of `BaseHandler`. -/
inductive SlotValue where
  | plain (j : JsonSerializer)
  | jsonError (j : JsonErrorSerializer)
  | jsonNotFound (j : JsonNotFoundSerializer)
  | custom (tag : Nat)

/-- The serializer configuration slots of `BaseHandler` (nil modelled by
`none`).  setDefaults in the unnamed file also assigns a
`DeserializationErrorSerializer` slot, so it is included here; the
`ServeHTTP` in base_handler.go never consults it. -/
structure SerializerSlots where
  SuccessSerializer : Option SlotValue
  DeserializationErrorSerializer : Option SlotValue
  ValidationErrorSerializer : Option SlotValue
  AuthenticationErrorSerializer : Option SlotValue
  ProcessingErrorSerializer : Option SlotValue
  NotFoundSerializer : Option SlotValue
  AuthorizationErrorSerializer : Option SlotValue

/-- Model of `JsonHandler.setDefaults` from the unnamed file: fill every nil
serializer slot with a JSON default carrying the conventional status
code; leave non-nil slots unchanged. -/
def setDefaults (j : SerializerSlots) : SerializerSlots :=
  { SuccessSerializer :=
      match j.SuccessSerializer with
      | none => some (SlotValue.plain { StatusCode := 200 })
      | some s => some s,
    DeserializationErrorSerializer :=
      match j.DeserializationErrorSerializer with
      | none => some (SlotValue.jsonError { StatusCode := 400, Error := none })
      | some s => some s,
    ValidationErrorSerializer :=
      match j.ValidationErrorSerializer with
      | none => some (SlotValue.jsonError { StatusCode := 400, Error := none })
      | some s => some s,
    AuthenticationErrorSerializer :=
      match j.AuthenticationErrorSerializer with
      | none => some (SlotValue.jsonError { StatusCode := 401, Error := none })
      | some s => some s,
    ProcessingErrorSerializer :=
      match j.ProcessingErrorSerializer with
      | none => some (SlotValue.jsonError { StatusCode := 500, Error := none })
      | some s => some s,
    NotFoundSerializer :=
      match j.NotFoundSerializer with
      | none => some (SlotValue.jsonError { StatusCode := 404, Error := none })
      | some s => some s,
    AuthorizationErrorSerializer :=
      match j.AuthorizationErrorSerializer with
      | none => some (SlotValue.jsonError { StatusCode := 403, Error := none })
      | some s => some s }

/-- Model of `NewJsonHandler` from the unnamed file: `JsonHandler` embeds the
given `BaseHandler` unchanged and adds no fields, so on the serializer
slots it is exactly `setDefaults`. -/
def NewJsonHandler (base : SerializerSlots) : SerializerSlots :=
  setDefaults base

/-! Section: concrete handlers used as inputs to the theorems. -/

/-- A handler whose processor returns an output that does not implement
`Authorizable`: no authenticator, input always valid. -/
def hC1 : Handler Unit Unit Unit Unit Unit :=
  { authenticator := none,
    deserializer := fun _ => (),
    validate := fun _ => none,
    process := fun _ => (some (), none),
    isAuthorizable := fun _ => false,
    authorize := fun _ _ => none }

/-- Scenario A of the spec: no authenticator, input valid, processor
returns `Output\x7bid:1\x7d` (modelled by the value `1`) which has no
`Authorizable` capability. -/
def hC2 : Handler Unit Unit Nat Unit Unit :=
  { authenticator := none,
    deserializer := fun _ => (),
    validate := fun _ => none,
    process := fun _ => (some 1, none),
    isAuthorizable := fun _ => false,
    authorize := fun _ _ => none }

/-- A handler with an authenticator that succeeds and a processor that
returns `(nil, nil)`; the output type is authorizable. -/
def hC5 : Handler Unit Unit Unit Unit Unit :=
  { authenticator := some (fun _ => (some (), none)),
    deserializer := fun _ => (),
    validate := fun _ => none,
    process := fun _ => (none, none),
    isAuthorizable := fun _ => true,
    authorize := fun _ _ => none }

/-- A handler with no authenticator and an authorizable output. -/
def hC6 : Handler Unit Unit Unit Unit Unit :=
  { authenticator := none,
    deserializer := fun _ => (),
    validate := fun _ => none,
    process := fun _ => (some (), none),
    isAuthorizable := fun _ => true,
    authorize := fun _ _ => none }

/-- A handler used to witness determinism of the pipeline. -/
def hC8 : Handler Unit Unit Unit Unit Unit :=
  { authenticator := some (fun _ => (none, some (GoError.simple "denied"))),
    deserializer := fun _ => (),
    validate := fun _ => none,
    process := fun _ => (some (), none),
    isAuthorizable := fun _ => true,
    authorize := fun _ _ => none }

/-- An `error` value that also implements `json.Marshaler`, whose
`MarshalJSON` encodes the JSON string `"boom"`. -/
def errBoom : GoValue :=
  { errorMsg := some "boom",
    marshalJSON := some (Json.str "boom"),
    defaultEncoding := Json.obj [] }

/-! Section: claim theorems. -/

/-- C1: the claim says every request invokes exactly one of the six
serializers.  The code violates it: when the processor returns a non-nil
output that does not implement `Authorizable`, `GetAuthorizer` panics on
its unchecked type assertion and no serializer is invoked at all. -/
theorem serveHTTP_panics_without_serializer :
    (ServeHTTP hC1 ()).1 = Outcome.panicked ∧
    serializeCount (ServeHTTP hC1 ()).2 = 0 := by
  exact ⟨rfl, rfl⟩

/-- C2: the claim (and Scenario A of the spec) says a non-authorizable
output reaches the Success serializer.  The code instead panics inside
`GetAuthorizer` and the Success serializer is never invoked. -/
theorem scenarioA_panics_not_success :
    (ServeHTTP hC2 ()).1 = Outcome.panicked ∧
    (ServeHTTP hC2 ()).1 ≠ Outcome.serialized Slot.success (SerArg.out 1) ∧
    Event.serialize Slot.success (SerArg.out 1) ∉ (ServeHTTP hC2 ()).2 := by
  refine ⟨rfl, by decide, by decide⟩

/-- C3: `GetAuthorizer` returns the (non-nil) authorizer exactly when
its argument implements `Authorizable`; for any argument that does not,
the unchecked type assertion in its first statement panics, and it never
returns nil normally for such inputs. -/
theorem getAuthorizer_spec {α : Type} (isAuth : α → Bool) (o : α) :
    (GetAuthorizer isAuth o = Except.error () ↔ isAuth o = false) ∧
    (GetAuthorizer isAuth o = Except.ok (some o) ↔ isAuth o = true) ∧
    GetAuthorizer isAuth o ≠ Except.ok none := by
  unfold GetAuthorizer
  cases h : isAuth o <;> simp

/-- Every event recorded by `serveCore` beyond the inherited prefix is a
deserialize, validate or process call, an authorize call carrying
exactly the `auth_details` value passed in, or a serializer call. -/
theorem serveCore_events {ρ ι α δ κ : Type} (h : Handler ρ ι α δ κ) (r : ρ)
    (d : Option δ) (tr0 : List (Event α δ κ)) (e : Event α δ κ)
    (he : e ∈ (serveCore h r d tr0).2) :
    e ∈ tr0 ∨ e = Event.deserialize ∨ e = Event.validate ∨ e = Event.process ∨
    e = Event.authorize d ∨ (∃ s v, e = Event.serialize s v) := by
  simp only [serveCore] at he
  split at he <;>
    [skip;
     (split at he <;>
        [skip; skip;
         (split at he <;> [skip; (split at he <;> skip); skip])])] <;>
  simp at he <;>
  rcases he with he | he | he | he | he | he <;>
  simp_all

/-- C5: whenever authentication passes (or is absent), validation
passes and the processor returns `(nil, nil)`, `ServeHTTP` invokes the
NotFound serializer with the internally synthesized (non-nil) error
`errors.New("Not found")` — whatever `isAuthorizable` would have said —
and no other serializer runs. -/
theorem serveHTTP_nil_nil_notFound {ρ ι α δ κ : Type}
    (h : Handler ρ ι α δ κ) (r : ρ)
    (hauth : ∀ a, h.authenticator = some a → (a r).2 = none)
    (hval : h.validate (h.deserializer r) = none)
    (hproc : h.process (h.deserializer r) = (none, none)) :
    (ServeHTTP h r).1 =
      Outcome.serialized Slot.notFound (SerArg.err (GoError.simple "Not found")) ∧
    serializeCount (ServeHTTP h r).2 = 1 := by
  have hcore : ∀ tr0 : List (Event α δ κ), ∀ d : Option δ,
      serveCore h r d tr0 =
        (Outcome.serialized Slot.notFound (SerArg.err (GoError.simple "Not found")),
         tr0 ++ [Event.deserialize, Event.validate, Event.process,
           Event.serialize Slot.notFound (SerArg.err (GoError.simple "Not found"))]) := by
    intro tr0 d
    simp [serveCore, hval, hproc]
  unfold ServeHTTP
  cases ha : h.authenticator with
  | none =>
      rw [hcore]
      exact ⟨rfl, rfl⟩
  | some a =>
      have h2 := hauth a ha
      simp only [h2, hcore]
      simp [serializeCount]

/-- Witness for C5 at the concrete handler `hC5`. -/
theorem serveHTTP_nil_nil_notFound_witness :
    (ServeHTTP hC5 ()).1 =
      Outcome.serialized Slot.notFound (SerArg.err (GoError.simple "Not found")) ∧
    serializeCount (ServeHTTP hC5 ()).2 = 1 :=
  serveHTTP_nil_nil_notFound hC5 () (fun _ ha => by cases ha; rfl) rfl rfl

/-- C6: with the `Authenticator` slot nil, the authentication phase is
never invoked, and every `Authorize` call receives the "none" (nil)
auth-details value. -/
theorem serveHTTP_no_authenticator {ρ ι α δ κ : Type}
    (h : Handler ρ ι α δ κ) (r : ρ) (hnone : h.authenticator = none) :
    Event.authenticate ∉ (ServeHTTP h r).2 ∧
    ∀ d, Event.authorize d ∈ (ServeHTTP h r).2 → d = none := by
  unfold ServeHTTP
  rw [hnone]
  constructor
  · intro hmem
    rcases serveCore_events h r none [] _ hmem with h1 | h1 | h1 | h1 | h1 | ⟨s, v, h1⟩ <;>
      simp_all
  · intro d hmem
    rcases serveCore_events h r none [] _ hmem with h1 | h1 | h1 | h1 | h1 | ⟨s, v, h1⟩ <;>
      simp_all

/-- Witness for C6 at the concrete handler `hC6`. -/
theorem serveHTTP_no_authenticator_witness :
    Event.authenticate ∉ (ServeHTTP hC6 ()).2 ∧
    ∀ d, Event.authorize d ∈ (ServeHTTP hC6 ()).2 → d = none :=
  serveHTTP_no_authenticator hC6 () rfl

/-- C8: the orchestrator is deterministic — two invocations with equal
configuration and equal requests produce the same terminal outcome and
the same trace (so the same serializer writes the same response). -/
theorem serveHTTP_deterministic {ρ ι α δ κ : Type}
    (h₁ h₂ : Handler ρ ι α δ κ) (r₁ r₂ : ρ) (hh : h₁ = h₂) (hr : r₁ = r₂) :
    (ServeHTTP h₁ r₁).1 = (ServeHTTP h₂ r₂).1 ∧
    (ServeHTTP h₁ r₁).2 = (ServeHTTP h₂ r₂).2 := by
  subst hh
  subst hr
  exact ⟨rfl, rfl⟩

/-- Witness for C8 at the concrete handler `hC8`. -/
theorem serveHTTP_deterministic_witness :
    (ServeHTTP hC8 ()).1 = (ServeHTTP hC8 ()).1 ∧
    (ServeHTTP hC8 ()).2 = (ServeHTTP hC8 ()).2 :=
  serveHTTP_deterministic hC8 hC8 () () rfl rfl

/-- C4 counterexample: for an error value that implements
`json.Marshaler` (here encoding the JSON string `"boom"`), the body is
the marshalled value itself, NOT the object `\x7b"error": <value>\x7d`
the claim describes. -/
theorem jsonError_marshaler_not_wrapped :
    (JsonErrorSerializer.Serialize { StatusCode := 500, Error := none } errBoom).body
      = "\"boom\"" ∧
    (JsonErrorSerializer.Serialize { StatusCode := 500, Error := none } errBoom).body
      ≠ Json.render (Json.obj [("error", Json.str "boom")]) := by
  exact ⟨rfl, by decide⟩

/-- C4 (amended): with no configured `Error` override, an error value
that implements `json.Marshaler` is encoded as its own `MarshalJSON`
value (unwrapped); an error value that does not is encoded as
`\x7b"error": <its message>\x7d`; the Content-Type indicates JSON in all
cases. -/
theorem jsonError_body_spec (sc : Nat) (out : GoValue) (msg : String)
    (h : out.errorMsg = some msg) :
    (JsonErrorSerializer.Serialize { StatusCode := sc, Error := none } out).contentType
      = "application/json" ∧
    (JsonErrorSerializer.Serialize { StatusCode := sc, Error := none } out).body
      = match out.marshalJSON with
        | some j => Json.render j
        | none => Json.render (Json.obj [("error", Json.str msg)]) := by
  unfold JsonErrorSerializer.Serialize
  cases hm : out.marshalJSON <;> simp [h, hm, jsonMarshal]

/-- Witness for the amended C4 at `errors.New("db down")`. -/
theorem jsonError_body_spec_witness :
    (JsonErrorSerializer.Serialize { StatusCode := 500, Error := none }
        (goErrorsNew "db down")).contentType = "application/json" ∧
    (JsonErrorSerializer.Serialize { StatusCode := 500, Error := none }
        (goErrorsNew "db down")).body
      = match (goErrorsNew "db down").marshalJSON with
        | some j => Json.render j
        | none => Json.render (Json.obj [("error", Json.str "db down")]) :=
  jsonError_body_spec 500 (goErrorsNew "db down") "db down" rfl

/-- C7: `NewJsonHandler` fills every nil serializer slot with the JSON
default carrying the conventional status code (success 200,
authentication 401, validation 400, processing 500, not-found 404,
authorization 403) and leaves non-nil slots unchanged; the default
processing-error serializer, given `errors.New("db down")`, writes
status 500 and body `\x7b"error":"db down"\x7d`. -/
theorem newJsonHandler_defaults (s : SerializerSlots) :
    (NewJsonHandler s).SuccessSerializer =
      (match s.SuccessSerializer with
       | none => some (SlotValue.plain { StatusCode := 200 })
       | some x => some x) ∧
    (NewJsonHandler s).AuthenticationErrorSerializer =
      (match s.AuthenticationErrorSerializer with
       | none => some (SlotValue.jsonError { StatusCode := 401, Error := none })
       | some x => some x) ∧
    (NewJsonHandler s).ValidationErrorSerializer =
      (match s.ValidationErrorSerializer with
       | none => some (SlotValue.jsonError { StatusCode := 400, Error := none })
       | some x => some x) ∧
    (NewJsonHandler s).ProcessingErrorSerializer =
      (match s.ProcessingErrorSerializer with
       | none => some (SlotValue.jsonError { StatusCode := 500, Error := none })
       | some x => some x) ∧
    (NewJsonHandler s).NotFoundSerializer =
      (match s.NotFoundSerializer with
       | none => some (SlotValue.jsonError { StatusCode := 404, Error := none })
       | some x => some x) ∧
    (NewJsonHandler s).AuthorizationErrorSerializer =
      (match s.AuthorizationErrorSerializer with
       | none => some (SlotValue.jsonError { StatusCode := 403, Error := none })
       | some x => some x) ∧
    JsonErrorSerializer.Serialize { StatusCode := 500, Error := none }
        (goErrorsNew "db down")
      = { contentType := "application/json", status := 500,
          body := "\x7b\"error\":\"db down\"\x7d" } := by
  refine ⟨rfl, rfl, rfl, rfl, rfl, rfl, ?_⟩
  rfl

/-- C9: `JsonNotFoundSerializer.Serialize` ignores both its own
configuration and the value passed to it: it always writes status 404
and body `\x7b"error":"Not found"\x7d`. -/
theorem jsonNotFound_constant (j : JsonNotFoundSerializer) (out : GoValue) :
    JsonNotFoundSerializer.Serialize j out =
      { contentType := "application/json", status := 404,
        body := "\x7b\"error\":\"Not found\"\x7d" } := by
  rfl

/-- C10: when the `Error` field of a `JsonErrorSerializer` is set, the
serialized response ignores the `Outputable` argument and is exactly the
serialization of the `Error` field's value. -/
theorem jsonError_override (j : JsonErrorSerializer) (e out out2 : GoValue)
    (h : j.Error = some e) :
    JsonErrorSerializer.Serialize j out = JsonErrorSerializer.Serialize j out2 ∧
    JsonErrorSerializer.Serialize j out =
      JsonErrorSerializer.Serialize { StatusCode := j.StatusCode, Error := none } e := by
  unfold JsonErrorSerializer.Serialize
  simp [h]

/-- Witness for C10 at a concrete configured serializer. -/
theorem jsonError_override_witness :
    JsonErrorSerializer.Serialize { StatusCode := 418, Error := some (goErrorsNew "x") }
        errBoom
      = JsonErrorSerializer.Serialize { StatusCode := 418, Error := some (goErrorsNew "x") }
        (goErrorsNew "other") ∧
    JsonErrorSerializer.Serialize { StatusCode := 418, Error := some (goErrorsNew "x") }
        errBoom
      = JsonErrorSerializer.Serialize { StatusCode := 418, Error := none }
        (goErrorsNew "x") :=
  jsonError_override { StatusCode := 418, Error := some (goErrorsNew "x") }
    (goErrorsNew "x") errBoom (goErrorsNew "other") rfl

end Resdk
